import Mathlib

/-!
Shallow embedding of `devops/scripts/validate_deployment.py` (Databricks
deployment validation script).

Modelling conventions:
* Parsed JSON values are modelled by the inductive `Json`.
* The network is an oracle `Transport : method → url → body → HttpOutcome`;
  a transport-level Python exception is `HttpOutcome.exception`, an HTTP
  reply is `HttpOutcome.response status body` (the body already parsed).
* Python truthiness of a JSON value is `pyTruthy`; `x in d` (dict key or
  list membership test with a string) is `pyContains`.
* Console printing and the report timestamp are I/O and are not modelled;
  everything else in each function is carried over field by field.
-/

/-- A parsed JSON value, as produced by `response.json()`. -/
inductive Json : Type where
  | null : Json
  | jbool (b : Bool) : Json
  | jnum (n : Int) : Json
  | jstr (s : String) : Json
  | jarr (elems : List Json) : Json
  | jobj (fields : List (String × Json)) : Json
deriving Repr

/-- Python truthiness (`if response:`) of a JSON value. -/
def pyTruthy : Json → Bool
  | Json.null => false
  | Json.jbool b => b
  | Json.jnum n => n != 0
  | Json.jstr s => s != ""
  | Json.jarr xs => !xs.isEmpty
  | Json.jobj fs => !fs.isEmpty

/-- Python `k in j` for a string key `k`: dict key membership, or list
membership for a JSON array.  (On other value shapes the Python code
would raise; those shapes never reach the `in` tests of this script.) -/
def pyContains (j : Json) (k : String) : Bool :=
  match j with
  | Json.jobj fs => fs.any (fun kv => kv.1 == k)
  | Json.jarr xs => xs.any (fun x => match x with
      | Json.jstr t => t == k
      | _ => false)
  | _ => false

/-- Python `d[k]` / `d.get(k)` on a JSON object: the first binding of `k`. -/
def jGet (j : Json) (k : String) : Option Json :=
  match j with
  | Json.jobj fs => (fs.find? (fun kv => kv.1 == k)).map (fun kv => kv.2)
  | _ => none

/-- Python `d.get(k) == s` where `s` is a string: `True` exactly when the
key is present and bound to that exact (case-sensitive) string. -/
def jGetEqStr (j : Json) (k : String) (s : String) : Bool :=
  match jGet j k with
  | some (Json.jstr t) => t == s
  | _ => false

/-- Outcome of one HTTP call made by the `requests` library: either a
raised exception, or a reply with a status code and a parsed body. -/
inductive HttpOutcome : Type where
  | exception (msg : String) : HttpOutcome
  | response (status : Nat) (body : Json) : HttpOutcome

/-- The network oracle: method, full URL, optional JSON body ↦ outcome. -/
abbrev Transport : Type := String → String → Option Json → HttpOutcome

/-- Python `s.rstrip('/')` (used on the host in `__init__`). -/
def rstripSlash (s : String) : String :=
  String.mk ((s.data.reverse.dropWhile (fun c => c = '/')).reverse)

/-- Python `s.startswith(pre)`, on the character lists of the strings. -/
def pyStartswith (s pre : String) : Bool := pre.data.isPrefixOf s.data

/-- The endpoint normalization of `_make_request`: ensure the endpoint
starts with `/api/2.0` (Python `endpoint.startswith('/api/2.0')`). -/
def normalizeEndpoint (endpoint : String) : String :=
  if pyStartswith endpoint "/api/2.0" then endpoint else "/api/2.0" ++ endpoint

/-- `DeploymentValidator._make_request`.  The `try` block either performs
the GET/POST or raises `ValueError` on an unsupported method (modelled by
`Except.error`); any raised exception is caught and `None` is returned;
a non-200 status also returns `None`; a 200 status returns the body. -/
def make_request (tr : Transport) (host : String) (endpoint : String)
    (method : String) (data : Option Json) : Option Json :=
  let ep := normalizeEndpoint endpoint
  let url := host ++ ep
  let attempt : Except String HttpOutcome :=
    if method = "GET" then Except.ok (tr "GET" url none)
    else if method = "POST" then Except.ok (tr "POST" url data)
    else Except.error ("Unsupported method: " ++ method)
  match attempt with
  | Except.error _ => none
  | Except.ok (HttpOutcome.exception _) => none
  | Except.ok (HttpOutcome.response status body) =>
      if status = 200 then some body else none

/-- `DeploymentValidator.check_path_exists`: POST the path to
`/workspace/get-status`, return `if response and 'path' in response`. -/
def check_path_exists (tr : Transport) (host : String) (path : String) : Bool :=
  let data := Json.jobj [("path", Json.jstr path)]
  match make_request tr host "/workspace/get-status" "POST" (some data) with
  | some response => pyTruthy response && pyContains response "path"
  | none => false

/-- One entry of the `objects` array returned by `/workspace/list`, with
the reply the API would give for a recursive listing of that entry baked
in as `sub` (`none` models a failed/empty-keyed reply, see `listNotebooks`). -/
inductive WObj : Type where
  | mk (object_type : String) (path : String) (sub : Option (List WObj)) : WObj

/-- The `object_type` field. -/
def WObj.object_type : WObj → String
  | WObj.mk t _ _ => t

/-- The `path` field. -/
def WObj.path : WObj → String
  | WObj.mk _ p _ => p

mutual

/-- `DeploymentValidator.list_notebooks` on the reply for one path:
`none` models `_make_request` returning `None`, or a falsy reply, or a
reply without an `objects` key (all of which leave `notebooks` empty);
`some objs` models a reply whose `objects` array is `objs`. -/
def listNotebooks : Option (List WObj) → List String
  | none => []
  | some objs => listNotebooksGo objs

/-- The `for obj in response['objects']` loop of `list_notebooks`:
notebooks are appended, directories are recursed into, other object
types are skipped. -/
def listNotebooksGo : List WObj → List String
  | [] => []
  | WObj.mk t p sub :: rest =>
      if t = "NOTEBOOK" then p :: listNotebooksGo rest
      else if t = "DIRECTORY" then listNotebooks sub ++ listNotebooksGo rest
      else listNotebooksGo rest

end

mutual

/-- The number of NOTEBOOK-typed leaves in the (possibly nested) tree
behind one listing reply. -/
def countNotebookLeaves : Option (List WObj) → Nat
  | none => 0
  | some objs => countNotebookLeavesGo objs

/-- Leaf count over one `objects` array. -/
def countNotebookLeavesGo : List WObj → Nat
  | [] => 0
  | WObj.mk t _ sub :: rest =>
      if t = "NOTEBOOK" then 1 + countNotebookLeavesGo rest
      else if t = "DIRECTORY" then countNotebookLeaves sub + countNotebookLeavesGo rest
      else countNotebookLeavesGo rest

end

/-- One entry appended to `self.validation_results`.  The Python dicts
have a varying key set; the optional keys are `none` when absent. -/
structure VResult : Type where
  component : String
  status : String
  message : String
  notebooks : Option (List String) := none
  cluster_state : Option Json := none
deriving Repr

/-- The state set up by `DeploymentValidator.__init__` that the checks
read (the token only feeds the auth header, which lives inside the
`Transport` oracle and is not modelled separately). -/
structure DeploymentValidator : Type where
  host : String
  env : String

/-- `DeploymentValidator.__init__`: the host is right-stripped of `/`. -/
def DeploymentValidator.init (host : String) (env : String) : DeploymentValidator :=
  { host := rstripSlash host, env := env }

/-- `self.base_path = f"/Workspace/Deployments/{env}/files/src"`. -/
def DeploymentValidator.base_path (v : DeploymentValidator) : String :=
  "/Workspace/Deployments/" ++ v.env ++ "/files/src"

/-- The listing oracle handed to the folder checks: for each directory
path, the `/workspace/list` reply (`none` = failed/keyless reply), with
the replies for nested directories baked into the `WObj` entries. -/
abbrev Listing : Type := String → Option (List WObj)

/-- `DeploymentValidator.validate_shared_folder`: returns the result list
with the one appended entry, and the method's boolean return value. -/
def validate_shared_folder (v : DeploymentValidator) (tr : Transport)
    (lst : Listing) (results : List VResult) : List VResult × Bool :=
  let shared_path := v.base_path ++ "/shared"
  if !(check_path_exists tr v.host shared_path) then
    (results ++ [{ component := "shared", status := "FAILED",
                   message := "Shared folder not found at " ++ shared_path }],
     false)
  else
    let notebooks := listNotebooks (lst shared_path)
    if notebooks.isEmpty then
      (results ++ [{ component := "shared", status := "WARNING",
                     message := "Shared folder exists but contains no notebooks" }],
       true)
    else
      (results ++ [{ component := "shared", status := "PASSED",
                     message := "Found " ++ toString notebooks.length
                       ++ " notebooks in shared folder",
                     notebooks := some notebooks }],
       true)

/-- `DeploymentValidator.validate_use_case`, same shape as the shared
check but parameterized by the use-case name. -/
def validate_use_case (v : DeploymentValidator) (tr : Transport)
    (lst : Listing) (use_case : String) (results : List VResult) :
    List VResult × Bool :=
  let use_case_path := v.base_path ++ "/" ++ use_case
  if !(check_path_exists tr v.host use_case_path) then
    (results ++ [{ component := use_case, status := "FAILED",
                   message := use_case ++ " folder not found at " ++ use_case_path }],
     false)
  else
    let notebooks := listNotebooks (lst use_case_path)
    if notebooks.isEmpty then
      (results ++ [{ component := use_case, status := "WARNING",
                     message := use_case ++ " folder exists but contains no notebooks" }],
       true)
    else
      (results ++ [{ component := use_case, status := "PASSED",
                     message := "Found " ++ toString notebooks.length
                       ++ " notebooks in " ++ use_case,
                     notebooks := some notebooks }],
       true)

/-- The list the `for cluster in response['clusters']` loop iterates
over: present only when the reply is truthy and has a `clusters` key
bound to an array, otherwise the loop body never runs. -/
def clusterEntries (response : Option Json) : List Json :=
  match response with
  | some j =>
      if pyTruthy j && pyContains j "clusters" then
        match jGet j "clusters" with
        | some (Json.jarr cs) => cs
        | _ => []
      else []
  | none => []

/-- `DeploymentValidator.validate_cluster`: GET `/clusters/list`, scan for
the first entry whose `cluster_name` equals `cluster_name` exactly
(Python `cluster.get('cluster_name') == cluster_name`); append PASSED
with that entry's `state` (`cluster.get('state')`, `null` when absent)
and return `True`, else append WARNING and return `False`. -/
def validate_cluster (v : DeploymentValidator) (tr : Transport)
    (cluster_name : String) (results : List VResult) : List VResult × Bool :=
  let response := make_request tr v.host "/clusters/list" "GET" none
  match (clusterEntries response).find?
      (fun c => jGetEqStr c "cluster_name" cluster_name) with
  | some c =>
      (results ++ [{ component := "cluster-" ++ cluster_name, status := "PASSED",
                     message := "Cluster " ++ cluster_name ++ " found",
                     cluster_state := some ((jGet c "state").getD Json.null) }],
       true)
  | none =>
      (results ++ [{ component := "cluster-" ++ cluster_name, status := "WARNING",
                     message := "Cluster " ++ cluster_name ++ " not found" }],
       false)

/-- `DeploymentValidator.run_smoke_test`: POST the bundle root to
`/workspace/get-status`; the return value is `if response:` — Python
truthiness of the reply, `False` on a `None`/falsy reply. -/
def run_smoke_test (v : DeploymentValidator) (tr : Transport) : Bool :=
  let bundle_root := "/Workspace/Deployments/" ++ v.env
  let response := make_request tr v.host "/workspace/get-status" "POST"
      (some (Json.jobj [("path", Json.jstr bundle_root)]))
  match response with
  | some j => pyTruthy j
  | none => false

/-- The `summary` sub-dict of the report. -/
structure Summary : Type where
  total_checks : Nat
  passed : Nat
  failed : Nat
  warnings : Nat
deriving Repr

/-- The report of `generate_report`; the wall-clock `timestamp` field is
I/O and is omitted. -/
structure Report : Type where
  environment : String
  workspace_host : String
  base_path : String
  validation_results : List VResult
  summary : Summary
deriving Repr

/-- `DeploymentValidator.generate_report`. -/
def generate_report (v : DeploymentValidator) (results : List VResult) : Report :=
  { environment := v.env,
    workspace_host := v.host,
    base_path := v.base_path,
    validation_results := results,
    summary :=
      { total_checks := results.length,
        passed := (results.filter (fun r => r.status == "PASSED")).length,
        failed := (results.filter (fun r => r.status == "FAILED")).length,
        warnings := (results.filter (fun r => r.status == "WARNING")).length } }

/-- The parsed command-line arguments that influence control flow
(`--host`/`--token`/`--output-json` only feed I/O and the transport). -/
structure Args : Type where
  env : String
  use_case : Option String := none
  validate_all : Bool := false
  smoke_test : Bool := false

/-- Python truthiness of `args.use_case` (`None` or a string). -/
def pyTruthyOptStr : Option String → Bool
  | none => false
  | some s => s != ""

/-- The validation phase of `main` (lines after `all_passed = True`):
returns the accumulated `validation_results` and the final
`all_passed` flag. -/
def runValidations (args : Args) (v : DeploymentValidator) (tr : Transport)
    (lst : Listing) : List VResult × Bool :=
  if args.smoke_test then
    ([], run_smoke_test v tr)
  else
    let s := validate_shared_folder v tr lst []
    let afterShared : List VResult × Bool := (s.1, s.2)
    let afterUC : List VResult × Bool :=
      if args.validate_all || args.use_case == some "all" then
        let u1 := validate_use_case v tr lst "usecase-1" afterShared.1
        let u2 := validate_use_case v tr lst "usecase-2" u1.1
        (u2.1, afterShared.2 && u1.2 && u2.2)
      else if pyTruthyOptStr args.use_case then
        let u := validate_use_case v tr lst (args.use_case.getD "") afterShared.1
        (u.1, afterShared.2 && u.2)
      else afterShared
    let cluster_name := args.env ++ "-cluster"
    let c := validate_cluster v tr cluster_name afterUC.1
    -- `validate_cluster`'s return value is not folded into all_passed
    (c.1, afterUC.2)

/-- The tail of `main`: build the report and choose the process exit
code from `report['summary']['failed']` alone. -/
def exit_code_of_report (report : Report) : Nat :=
  if report.summary.failed > 0 then 1 else 0

/-- `main` after a successful credential check: run the selected
validations, generate the report, and exit with
`1` iff `report['summary']['failed'] > 0`, else `0`.
Note the `all_passed` flag is computed but never read afterwards. -/
def main_exit_code (args : Args) (host : String) (tr : Transport)
    (lst : Listing) : Nat :=
  let v := DeploymentValidator.init host args.env
  let run := runValidations args v tr lst
  let report := generate_report v run.1
  exit_code_of_report report

/-- The `sub` field. -/
def WObj.sub : WObj → Option (List WObj)
  | WObj.mk _ _ s => s

theorem listNotebooksGo_eq_flatMap (objs : List WObj) :
    listNotebooksGo objs = objs.flatMap (fun o =>
      if o.object_type = "NOTEBOOK" then [o.path]
      else if o.object_type = "DIRECTORY" then listNotebooks o.sub
      else []) := by
  induction objs with
  | nil => simp [listNotebooksGo]
  | cons o rest ih =>
      cases o with
      | mk t p sub =>
          simp only [listNotebooksGo, List.flatMap_cons, WObj.object_type,
            WObj.path, WObj.sub, ih]
          split
          · rfl
          · split <;> rfl

mutual

theorem listNotebooks_length : ∀ r : Option (List WObj),
    (listNotebooks r).length = countNotebookLeaves r
  | none => by simp [listNotebooks, countNotebookLeaves]
  | some objs => by
      simp only [listNotebooks, countNotebookLeaves]
      exact listNotebooksGo_length objs

theorem listNotebooksGo_length : ∀ objs : List WObj,
    (listNotebooksGo objs).length = countNotebookLeavesGo objs
  | [] => by simp [listNotebooksGo, countNotebookLeavesGo]
  | WObj.mk t p sub :: rest => by
      simp only [listNotebooksGo, countNotebookLeavesGo]
      split
      · simp only [List.length_cons, listNotebooksGo_length rest]
        omega
      · split
        · simp only [List.length_append, listNotebooks_length sub,
            listNotebooksGo_length rest]
        · exact listNotebooksGo_length rest

end

theorem validate_shared_folder_append (v : DeploymentValidator) (tr : Transport)
    (lst : Listing) (rs : List VResult) :
    validate_shared_folder v tr lst rs =
      (rs ++ (validate_shared_folder v tr lst []).1,
       (validate_shared_folder v tr lst []).2) := by
  simp only [validate_shared_folder]
  split
  · simp
  · split <;> simp

theorem validate_use_case_append (v : DeploymentValidator) (tr : Transport)
    (lst : Listing) (uc : String) (rs : List VResult) :
    validate_use_case v tr lst uc rs =
      (rs ++ (validate_use_case v tr lst uc []).1,
       (validate_use_case v tr lst uc []).2) := by
  simp only [validate_use_case]
  split
  · simp
  · split <;> simp

theorem validate_cluster_append (v : DeploymentValidator) (tr : Transport)
    (name : String) (rs : List VResult) :
    validate_cluster v tr name rs =
      (rs ++ (validate_cluster v tr name []).1,
       (validate_cluster v tr name []).2) := by
  simp only [validate_cluster]
  split <;> simp

/-- The fresh results the shared-folder check appends on an empty state. -/
def shared_new (v : DeploymentValidator) (tr : Transport) (lst : Listing) :
    List VResult :=
  (validate_shared_folder v tr lst []).1

/-- The fresh results a use-case check appends on an empty state. -/
def use_case_new (v : DeploymentValidator) (tr : Transport) (lst : Listing)
    (uc : String) : List VResult :=
  (validate_use_case v tr lst uc []).1

/-- The fresh results the cluster check appends on an empty state. -/
def cluster_new (v : DeploymentValidator) (tr : Transport) (name : String) :
    List VResult :=
  (validate_cluster v tr name []).1

theorem validate_shared_folder_results (v : DeploymentValidator) (tr : Transport)
    (lst : Listing) (rs : List VResult) :
    (validate_shared_folder v tr lst rs).1 = rs ++ shared_new v tr lst := by
  rw [validate_shared_folder_append]; rfl

theorem validate_use_case_results (v : DeploymentValidator) (tr : Transport)
    (lst : Listing) (uc : String) (rs : List VResult) :
    (validate_use_case v tr lst uc rs).1 = rs ++ use_case_new v tr lst uc := by
  rw [validate_use_case_append]; rfl

theorem validate_cluster_results (v : DeploymentValidator) (tr : Transport)
    (name : String) (rs : List VResult) :
    (validate_cluster v tr name rs).1 = rs ++ cluster_new v tr name := by
  rw [validate_cluster_append]; rfl

/-- In normal mode the accumulated results decompose as: the shared-folder
check's entries, then the selected use-case checks' entries, then the
cluster check's entry. -/
theorem runValidations_decomp (args : Args) (v : DeploymentValidator)
    (tr : Transport) (lst : Listing) (h : args.smoke_test = false) :
    (runValidations args v tr lst).1 =
      shared_new v tr lst
        ++ (if args.validate_all || args.use_case == some "all" then
              use_case_new v tr lst "usecase-1" ++ use_case_new v tr lst "usecase-2"
            else if pyTruthyOptStr args.use_case then
              use_case_new v tr lst (args.use_case.getD "")
            else [])
        ++ cluster_new v tr (args.env ++ "-cluster") := by
  simp only [runValidations, h, Bool.false_eq_true, if_false]
  split
  · simp only [validate_cluster_results, validate_use_case_results,
      validate_shared_folder_results, List.nil_append, List.append_assoc]
  · split
    · simp only [validate_cluster_results, validate_use_case_results,
        validate_shared_folder_results, List.nil_append, List.append_assoc]
    · simp only [validate_cluster_results, validate_shared_folder_results,
        List.nil_append, List.append_nil, List.append_assoc]

/-- The status strings a result of this script may carry. -/
def statusOk (r : VResult) : Bool :=
  r.status == "PASSED" || r.status == "FAILED" || r.status == "WARNING"

theorem shared_new_statusOk (v : DeploymentValidator) (tr : Transport)
    (lst : Listing) : (shared_new v tr lst).all statusOk = true := by
  simp only [shared_new, validate_shared_folder]
  split
  · simp [statusOk]
  · split <;> simp [statusOk]

theorem use_case_new_statusOk (v : DeploymentValidator) (tr : Transport)
    (lst : Listing) (uc : String) :
    (use_case_new v tr lst uc).all statusOk = true := by
  simp only [use_case_new, validate_use_case]
  split
  · simp [statusOk]
  · split <;> simp [statusOk]

theorem cluster_new_statusOk (v : DeploymentValidator) (tr : Transport)
    (name : String) : (cluster_new v tr name).all statusOk = true := by
  simp only [cluster_new, validate_cluster]
  split <;> simp [statusOk]

theorem runValidations_statusOk (args : Args) (v : DeploymentValidator)
    (tr : Transport) (lst : Listing) :
    ((runValidations args v tr lst).1).all statusOk = true := by
  by_cases h : args.smoke_test = true
  · simp [runValidations, h]
  · rw [runValidations_decomp args v tr lst (by simpa using h)]
    simp only [List.all_append, Bool.and_eq_true]
    refine ⟨⟨shared_new_statusOk v tr lst, ?_⟩, cluster_new_statusOk v tr _⟩
    split
    · simp only [List.all_append, Bool.and_eq_true]
      exact ⟨use_case_new_statusOk v tr lst _, use_case_new_statusOk v tr lst _⟩
    · split
      · exact use_case_new_statusOk v tr lst _
      · rfl

/-- Three disjoint status filters partition a list whose members all
carry one of the three statuses. -/
theorem counts_sum (rs : List VResult) (h : rs.all statusOk = true) :
    (rs.filter (fun r => r.status == "PASSED")).length
      + (rs.filter (fun r => r.status == "FAILED")).length
      + (rs.filter (fun r => r.status == "WARNING")).length = rs.length := by
  induction rs with
  | nil => simp
  | cons r rest ih =>
      simp only [List.all_cons, Bool.and_eq_true] at h
      obtain ⟨hr, hrest⟩ := h
      have ih' := ih hrest
      simp only [statusOk, Bool.or_eq_true, beq_iff_eq] at hr
      rcases hr with (h1 | h1) | h1
      · rw [List.filter_cons_of_pos (by rw [h1]; decide),
          List.filter_cons_of_neg (by rw [h1]; decide),
          List.filter_cons_of_neg (by rw [h1]; decide)]
        simp only [List.length_cons]
        omega
      · rw [List.filter_cons_of_neg (by rw [h1]; decide),
          List.filter_cons_of_pos (by rw [h1]; decide),
          List.filter_cons_of_neg (by rw [h1]; decide)]
        simp only [List.length_cons]
        omega
      · rw [List.filter_cons_of_neg (by rw [h1]; decide),
          List.filter_cons_of_neg (by rw [h1]; decide),
          List.filter_cons_of_pos (by rw [h1]; decide)]
        simp only [List.length_cons]
        omega

/-- C1: evidence for the smoke-test exit-code bug.  With a transport whose
existence probe on the deployment root fails, `run_smoke_test` returns
`False` (the smoke test fails), yet `main` still exits with code 0: the
exit code only inspects `report['summary']['failed']`, which is 0 because
smoke-test mode appends no results, and the `all_passed` flag holding the
smoke-test outcome is never read. -/
theorem C1_smoke_failure_exits_zero :
    run_smoke_test (DeploymentValidator.init "https://h" "dev")
        (fun _ _ _ => HttpOutcome.exception "connection error") = false
    ∧ main_exit_code { env := "dev", smoke_test := true } "https://h"
        (fun _ _ _ => HttpOutcome.exception "connection error")
        (fun _ => none) = 0 :=
  ⟨rfl, rfl⟩

/-- C2: in normal (non-smoke-test) mode the process exit code is 0 iff the
accumulated results contain no FAILED entry, and appending a WARNING
result never changes the exit code. -/
theorem C2_exit_zero_iff_no_failed (v : DeploymentValidator)
    (results : List VResult) (w : VResult) (args : Args) (host : String)
    (tr : Transport) (lst : Listing) (hw : w.status = "WARNING")
    (hs : args.smoke_test = false) :
    (main_exit_code args host tr lst = 0 ↔
      ((runValidations args (DeploymentValidator.init host args.env) tr lst).1.filter
        (fun r => r.status == "FAILED")).length = 0)
    ∧ exit_code_of_report (generate_report v (results ++ [w]))
        = exit_code_of_report (generate_report v results) := by
  constructor
  · simp only [main_exit_code, exit_code_of_report, generate_report]
    split
    · constructor <;> intro h2 <;> omega
    · constructor <;> intro h2 <;> omega
  · have hf : ([w].filter (fun r => r.status == "FAILED")) = [] := by
      rw [List.filter_cons_of_neg (by rw [hw]; decide)]
      rfl
    simp [exit_code_of_report, generate_report, List.filter_append, hf]

/-- Witness for C2 at a concrete run: an unreachable host in normal mode,
and a WARNING result appended to an empty result list. -/
theorem C2_exit_zero_iff_no_failed_witness :
    (main_exit_code { env := "dev" } "h"
        (fun _ _ _ => HttpOutcome.exception "e") (fun _ => none) = 0 ↔
      ((runValidations { env := "dev" }
          (DeploymentValidator.init "h" ({ env := "dev" } : Args).env)
          (fun _ _ _ => HttpOutcome.exception "e") (fun _ => none)).1.filter
        (fun r => r.status == "FAILED")).length = 0)
    ∧ exit_code_of_report (generate_report (DeploymentValidator.init "h" "dev")
        ([] ++ [{ component := "x", status := "WARNING", message := "m" }]))
        = exit_code_of_report
            (generate_report (DeploymentValidator.init "h" "dev") []) :=
  C2_exit_zero_iff_no_failed (DeploymentValidator.init "h" "dev") []
    { component := "x", status := "WARNING", message := "m" }
    { env := "dev" } "h" (fun _ _ _ => HttpOutcome.exception "e")
    (fun _ => none) rfl rfl

/-- C3: every accumulated result's status is one of PASSED, FAILED,
WARNING, and in the generated report `passed + failed + warnings`
equals `total_checks`, the length of the result sequence. -/
theorem C3_status_partition (args : Args) (host : String) (tr : Transport)
    (lst : Listing) :
    ((runValidations args (DeploymentValidator.init host args.env) tr lst).1.all
        statusOk = true)
    ∧ ((generate_report (DeploymentValidator.init host args.env)
          (runValidations args (DeploymentValidator.init host args.env) tr lst).1).summary.passed
        + (generate_report (DeploymentValidator.init host args.env)
            (runValidations args (DeploymentValidator.init host args.env) tr lst).1).summary.failed
        + (generate_report (DeploymentValidator.init host args.env)
            (runValidations args (DeploymentValidator.init host args.env) tr lst).1).summary.warnings
        = (generate_report (DeploymentValidator.init host args.env)
            (runValidations args (DeploymentValidator.init host args.env) tr lst).1).summary.total_checks) := by
  refine ⟨runValidations_statusOk _ _ _ _, ?_⟩
  have h := counts_sum _
    (runValidations_statusOk args (DeploymentValidator.init host args.env) tr lst)
  simpa [generate_report] using h

/-- C8: with `--smoke-test` set, only the smoke test runs and no structured
result is appended: the report's `validation_results` is empty and the
summary counts zero checks. -/
theorem C8_smoke_mode_empty_results (args : Args) (host : String)
    (tr : Transport) (lst : Listing) (h : args.smoke_test = true) :
    (runValidations args (DeploymentValidator.init host args.env) tr lst).1 = []
    ∧ (generate_report (DeploymentValidator.init host args.env)
        (runValidations args (DeploymentValidator.init host args.env) tr lst).1).validation_results = []
    ∧ (generate_report (DeploymentValidator.init host args.env)
        (runValidations args (DeploymentValidator.init host args.env) tr lst).1).summary.total_checks = 0 := by
  have h1 : (runValidations args (DeploymentValidator.init host args.env) tr lst).1 = [] := by
    simp [runValidations, h]
  refine ⟨h1, ?_, ?_⟩ <;> simp [generate_report, h1]

/-- Witness for C8 at a concrete smoke-test run. -/
theorem C8_smoke_mode_empty_results_witness :
    (runValidations { env := "dev", smoke_test := true }
        (DeploymentValidator.init "h" ({ env := "dev", smoke_test := true } : Args).env)
        (fun _ _ _ => HttpOutcome.exception "e") (fun _ => none)).1 = []
    ∧ (generate_report (DeploymentValidator.init "h" ({ env := "dev", smoke_test := true } : Args).env)
        (runValidations { env := "dev", smoke_test := true }
          (DeploymentValidator.init "h" ({ env := "dev", smoke_test := true } : Args).env)
          (fun _ _ _ => HttpOutcome.exception "e") (fun _ => none)).1).validation_results = []
    ∧ (generate_report (DeploymentValidator.init "h" ({ env := "dev", smoke_test := true } : Args).env)
        (runValidations { env := "dev", smoke_test := true }
          (DeploymentValidator.init "h" ({ env := "dev", smoke_test := true } : Args).env)
          (fun _ _ _ => HttpOutcome.exception "e") (fun _ => none)).1).summary.total_checks = 0 :=
  C8_smoke_mode_empty_results { env := "dev", smoke_test := true } "h"
    (fun _ _ _ => HttpOutcome.exception "e") (fun _ => none) rfl

/-- The status of the last appended result, used to state check outcomes. -/
def lastStatus (rs : List VResult) : Option String :=
  (rs.getLast?).map (fun r => r.status)

/-- C4: a folder check (shared or use case) appends exactly one result:
FAILED with return `False` when the existence probe reports the folder
absent; WARNING when the folder exists and the notebook listing is empty;
PASSED otherwise, reporting a count equal to the number of NOTEBOOK-typed
leaves of the (possibly nested) directory tree. -/
theorem C4_folder_check_cases (v : DeploymentValidator) (tr : Transport)
    (lst : Listing) (rs : List VResult) (uc : String)
    (resp : Option (List WObj)) :
    (validate_shared_folder v tr lst rs =
      if check_path_exists tr v.host (v.base_path ++ "/shared") then
        if (listNotebooks (lst (v.base_path ++ "/shared"))).isEmpty then
          (rs ++ [{ component := "shared", status := "WARNING",
                    message := "Shared folder exists but contains no notebooks" }],
           true)
        else
          (rs ++ [{ component := "shared", status := "PASSED",
                    message := "Found "
                      ++ toString (countNotebookLeaves (lst (v.base_path ++ "/shared")))
                      ++ " notebooks in shared folder",
                    notebooks := some (listNotebooks (lst (v.base_path ++ "/shared"))) }],
           true)
      else
        (rs ++ [{ component := "shared", status := "FAILED",
                  message := "Shared folder not found at "
                    ++ (v.base_path ++ "/shared") }],
         false))
    ∧ (validate_use_case v tr lst uc rs =
      if check_path_exists tr v.host (v.base_path ++ "/" ++ uc) then
        if (listNotebooks (lst (v.base_path ++ "/" ++ uc))).isEmpty then
          (rs ++ [{ component := uc, status := "WARNING",
                    message := uc ++ " folder exists but contains no notebooks" }],
           true)
        else
          (rs ++ [{ component := uc, status := "PASSED",
                    message := "Found "
                      ++ toString (countNotebookLeaves (lst (v.base_path ++ "/" ++ uc)))
                      ++ " notebooks in " ++ uc,
                    notebooks := some (listNotebooks (lst (v.base_path ++ "/" ++ uc))) }],
           true)
      else
        (rs ++ [{ component := uc, status := "FAILED",
                  message := uc ++ " folder not found at "
                    ++ (v.base_path ++ "/" ++ uc) }],
         false))
    ∧ (listNotebooks resp).length = countNotebookLeaves resp := by
  refine ⟨?_, ?_, listNotebooks_length resp⟩
  · by_cases hc : check_path_exists tr v.host (v.base_path ++ "/shared")
    · simp [validate_shared_folder, hc, listNotebooks_length]
    · simp [validate_shared_folder, hc]
  · by_cases hc : check_path_exists tr v.host (v.base_path ++ "/" ++ uc)
    · simp [validate_use_case, hc, listNotebooks_length]
    · simp [validate_use_case, hc]

/-- C5: the cluster check appends exactly one result, PASSED with the
matched entry's reported lifecycle state exactly when some entry of the
cluster list has `cluster_name` equal (case-sensitively) to the target
name, WARNING otherwise; the appended result is never FAILED. -/
theorem C5_cluster_check (v : DeploymentValidator) (tr : Transport)
    (name : String) (rs : List VResult) :
    (validate_cluster v tr name rs =
      match (clusterEntries (make_request tr v.host "/clusters/list" "GET" none)).find?
          (fun c => jGetEqStr c "cluster_name" name) with
      | some c =>
          (rs ++ [{ component := "cluster-" ++ name, status := "PASSED",
                    message := "Cluster " ++ name ++ " found",
                    cluster_state := some ((jGet c "state").getD Json.null) }],
           true)
      | none =>
          (rs ++ [{ component := "cluster-" ++ name, status := "WARNING",
                    message := "Cluster " ++ name ++ " not found" }],
           false))
    ∧ (lastStatus (validate_cluster v tr name rs).1 = some "PASSED" ↔
        ∃ c ∈ clusterEntries (make_request tr v.host "/clusters/list" "GET" none),
          jGetEqStr c "cluster_name" name = true)
    ∧ lastStatus (validate_cluster v tr name rs).1 ≠ some "FAILED" := by
  refine ⟨rfl, ?_, ?_⟩
  · constructor
    · intro hp
      cases hfind : (clusterEntries (make_request tr v.host "/clusters/list" "GET" none)).find?
          (fun c => jGetEqStr c "cluster_name" name) with
      | some c =>
          exact ⟨c, List.mem_of_find?_eq_some hfind,
            List.find?_some (p := fun c => jGetEqStr c "cluster_name" name) hfind⟩
      | none =>
          exfalso
          simp [validate_cluster, hfind, lastStatus, List.getLast?_concat] at hp
    · intro hex
      obtain ⟨a, ha⟩ := Option.isSome_iff_exists.mp (List.find?_isSome.mpr hex)
      simp [validate_cluster, ha, lastStatus, List.getLast?_concat]
  · cases hfind : (clusterEntries (make_request tr v.host "/clusters/list" "GET" none)).find?
        (fun c => jGetEqStr c "cluster_name" name) with
    | some c => simp [validate_cluster, hfind, lastStatus, List.getLast?_concat]
    | none => simp [validate_cluster, hfind, lastStatus, List.getLast?_concat]

/-- C6: `list_notebooks` returns the empty sequence when the listing
request fails, and otherwise the paths of NOTEBOOK-typed objects, with
DIRECTORY-typed objects recursed into and their results appended in the
order the API returned the objects (pre-order, not sorted). -/
theorem C6_list_notebooks_order (objs : List WObj) :
    listNotebooks none = []
    ∧ listNotebooks (some objs) =
        objs.flatMap (fun o =>
          if o.object_type = "NOTEBOOK" then [o.path]
          else if o.object_type = "DIRECTORY" then listNotebooks o.sub
          else []) := by
  constructor
  · simp [listNotebooks]
  · simp only [listNotebooks]
    exact listNotebooksGo_eq_flatMap objs

/-- C7: `_make_request` is a total function of the transport outcome: it
returns the body exactly on a 200 reply of a supported method, `None` on
an unsupported method (and hence on non-200 replies and transport
exceptions), and the URL always carries the `/api/2.0` prefix, prepended
exactly when absent. -/
theorem C7_make_request_total (tr : Transport) (host : String)
    (endpoint : String) (method : String) (data : Option Json) (b : Json) :
    (make_request tr host endpoint method data = some b ↔
      ((method = "GET" ∧ tr "GET" (host ++ normalizeEndpoint endpoint) none
          = HttpOutcome.response 200 b)
        ∨ (method = "POST" ∧ tr "POST" (host ++ normalizeEndpoint endpoint) data
            = HttpOutcome.response 200 b)))
    ∧ pyStartswith (normalizeEndpoint endpoint) "/api/2.0" = true
    ∧ (pyStartswith endpoint "/api/2.0" = true →
        normalizeEndpoint endpoint = endpoint)
    ∧ (pyStartswith endpoint "/api/2.0" = false →
        normalizeEndpoint endpoint = "/api/2.0" ++ endpoint)
    ∧ (method ≠ "GET" → method ≠ "POST" →
        make_request tr host endpoint method data = none) := by
  refine ⟨?_, ?_, ?_, ?_, ?_⟩
  · simp only [make_request]
    by_cases hg : method = "GET"
    · subst hg
      simp only [if_pos rfl]
      cases ho : tr "GET" (host ++ normalizeEndpoint endpoint) none with
      | exception m => simp [ho]
      | response s body' =>
          by_cases hs2 : s = 200 <;> simp [ho, hs2]
    · by_cases hp : method = "POST"
      · subst hp
        rw [if_neg hg, if_pos rfl]
        cases ho : tr "POST" (host ++ normalizeEndpoint endpoint) data with
        | exception m => simp [ho, hg]
        | response s body' =>
            by_cases hs2 : s = 200 <;> simp [ho, hs2, hg]
      · rw [if_neg hg, if_neg hp]
        simp [hg, hp]
  · simp only [normalizeEndpoint]
    split
    · assumption
    · simp only [pyStartswith, String.data_append]
      rw [List.isPrefixOf_iff_prefix]
      exact List.prefix_append _ _
  · intro h
    simp [normalizeEndpoint, h]
  · intro h
    simp [normalizeEndpoint, h]
  · intro h1 h2
    simp [make_request, h1, h2]

/-- Witness for C7: the normalization prepends the prefix on a concrete
endpoint, and a concrete unsupported method yields the no-result value. -/
theorem C7_make_request_total_witness :
    normalizeEndpoint "/clusters/list" = "/api/2.0/clusters/list"
    ∧ make_request (fun _ _ _ => HttpOutcome.exception "e") "h" "/x" "PUT"
        none = none := by
  constructor
  · have h := (C7_make_request_total (fun _ _ _ => HttpOutcome.exception "e")
      "h" "/clusters/list" "PUT" none Json.null).2.2.2.1
    rw [h (by decide)]
    decide
  · exact (C7_make_request_total (fun _ _ _ => HttpOutcome.exception "e")
      "h" "/x" "PUT" none Json.null).2.2.2.2 (by decide) (by decide)

/-- C9: in normal mode a validation failure never aborts the run: the
accumulated results always decompose as the shared-folder check's
entries, then the selected use-case checks' entries, then the cluster
check's single entry — whatever each check returned — and the report is
generated from exactly that sequence. -/
theorem C9_checks_always_run (args : Args) (v : DeploymentValidator)
    (tr : Transport) (lst : Listing) (hs : args.smoke_test = false) :
    ((runValidations args v tr lst).1 =
      shared_new v tr lst
        ++ (if args.validate_all || args.use_case == some "all" then
              use_case_new v tr lst "usecase-1" ++ use_case_new v tr lst "usecase-2"
            else if pyTruthyOptStr args.use_case then
              use_case_new v tr lst (args.use_case.getD "")
            else [])
        ++ cluster_new v tr (args.env ++ "-cluster"))
    ∧ (cluster_new v tr (args.env ++ "-cluster")).length = 1
    ∧ (generate_report v (runValidations args v tr lst).1).validation_results
        = (runValidations args v tr lst).1 := by
  refine ⟨runValidations_decomp args v tr lst hs, ?_, rfl⟩
  simp only [cluster_new, validate_cluster]
  split <;> simp

/-- Witness for C9: a concrete normal-mode run over an unreachable host
with both use cases selected; the shared check fails, yet the use-case
and cluster results are still appended. -/
theorem C9_checks_always_run_witness :
    (runValidations ⟨"dev", some "all", false, false⟩
        (DeploymentValidator.init "h" "dev")
        (fun _ _ _ => HttpOutcome.exception "e") (fun _ => none)).1 =
      shared_new (DeploymentValidator.init "h" "dev")
          (fun _ _ _ => HttpOutcome.exception "e") (fun _ => none)
        ++ (use_case_new (DeploymentValidator.init "h" "dev")
              (fun _ _ _ => HttpOutcome.exception "e") (fun _ => none) "usecase-1"
            ++ use_case_new (DeploymentValidator.init "h" "dev")
                (fun _ _ _ => HttpOutcome.exception "e") (fun _ => none) "usecase-2")
        ++ cluster_new (DeploymentValidator.init "h" "dev")
            (fun _ _ _ => HttpOutcome.exception "e") ("dev" ++ "-cluster") := by
  have h := C9_checks_always_run ⟨"dev", some "all", false, false⟩
    (DeploymentValidator.init "h" "dev")
    (fun _ _ _ => HttpOutcome.exception "e") (fun _ => none) rfl
  rw [h.1]
  simp

/-- The probe of `check_path_exists`, characterized at the transport
level: the POST goes to the normalized get-status URL and the probe is
`true` only on a truthy 200 reply carrying a `path` key. -/
theorem check_path_exists_eq (tr : Transport) (host : String) (path : String) :
    check_path_exists tr host path =
      match tr "POST" (host ++ "/api/2.0/workspace/get-status")
          (some (Json.jobj [("path", Json.jstr path)])) with
      | HttpOutcome.exception _ => false
      | HttpOutcome.response status body =>
          if status = 200 then pyTruthy body && pyContains body "path"
          else false := by
  have hnorm : normalizeEndpoint "/workspace/get-status"
      = "/api/2.0/workspace/get-status" := by decide
  have h1 : ¬ (("POST" : String) = "GET") := by decide
  simp only [check_path_exists, make_request, hnorm, if_neg h1, if_pos rfl]
  cases tr "POST" (host ++ "/api/2.0/workspace/get-status")
      (some (Json.jobj [("path", Json.jstr path)])) with
  | exception m => rfl
  | response s b => by_cases hs2 : s = 200 <;> simp [hs2]

/-- C10: at the existence-probe layer a transport error, a non-200 reply,
and a 200 reply without a `path` key are all reported as `False`, i.e.
indistinguishable from genuine absence, and a `False` probe makes the
shared-folder check emit its single FAILED result. -/
theorem C10_probe_error_is_absence (tr : Transport) (host : String)
    (path : String) (v : DeploymentValidator) (lst : Listing)
    (rs : List VResult) (msg : String) (status : Nat) (body : Json) :
    (tr "POST" (host ++ "/api/2.0/workspace/get-status")
        (some (Json.jobj [("path", Json.jstr path)]))
          = HttpOutcome.exception msg →
      check_path_exists tr host path = false)
    ∧ (status ≠ 200 →
        tr "POST" (host ++ "/api/2.0/workspace/get-status")
            (some (Json.jobj [("path", Json.jstr path)]))
          = HttpOutcome.response status body →
        check_path_exists tr host path = false)
    ∧ (tr "POST" (host ++ "/api/2.0/workspace/get-status")
          (some (Json.jobj [("path", Json.jstr path)]))
            = HttpOutcome.response 200 body →
        pyContains body "path" = false →
        check_path_exists tr host path = false)
    ∧ (check_path_exists tr v.host (v.base_path ++ "/shared") = false →
        validate_shared_folder v tr lst rs =
          (rs ++ [{ component := "shared", status := "FAILED",
                    message := "Shared folder not found at "
                      ++ (v.base_path ++ "/shared") }],
           false)) := by
  refine ⟨?_, ?_, ?_, ?_⟩
  · intro h
    rw [check_path_exists_eq, h]
  · intro hne h
    rw [check_path_exists_eq, h]
    simp [hne]
  · intro h hnk
    rw [check_path_exists_eq, h]
    simp [hnk]
  · intro h
    simp [validate_shared_folder, h]

/-- Witness for C10: a transport that always raises makes the probe
return `False` and the shared-folder check record FAILED. -/
theorem C10_probe_error_is_absence_witness :
    check_path_exists (fun _ _ _ => HttpOutcome.exception "e") "h" "/p" = false
    ∧ validate_shared_folder ⟨"h", "dev"⟩
        (fun _ _ _ => HttpOutcome.exception "e") (fun _ => none) [] =
      ([] ++ [{ component := "shared", status := "FAILED",
                message := "Shared folder not found at "
                  ++ ((⟨"h", "dev"⟩ : DeploymentValidator).base_path ++ "/shared") }],
       false) := by
  have h1 := C10_probe_error_is_absence (fun _ _ _ => HttpOutcome.exception "e")
    "h" "/p" ⟨"h", "dev"⟩ (fun _ => none) [] "e" 404 Json.null
  have h2 := C10_probe_error_is_absence (fun _ _ _ => HttpOutcome.exception "e")
    "h" ((⟨"h", "dev"⟩ : DeploymentValidator).base_path ++ "/shared")
    ⟨"h", "dev"⟩ (fun _ => none) [] "e" 404 Json.null
  exact ⟨h1.1 rfl, h1.2.2.2 (h2.1 rfl)⟩
